import Mathlib

/-!
# libvpk: archive status queries, on-disk record layout, WAD offset bookkeeping

A shallow embedding of the declarations in `basearchive.h`, `vpk1.h` and
`wad.h`.  C++ structures become Lean structures with the same field names,
inline member functions become functions on the structure, and unsigned /
signed machine integers are carried as `Nat` / `Int`; the member functions
defined in the headers only store, copy and compare them, and the one
operation that adds (`calc_offsets`) reduces modulo the width of its type.

Packed record layout (`#pragma pack(1)`) is modelled by listing the members of
a record in declaration order together with their C types and placing every
member directly after the previous one.
-/

set_option autoImplicit false

namespace libvpk

/-! ## Packed record layout -/

/-- The C types that occur as members of the packed on-disk records. -/
inductive CType where
  | char
  | unsigned_short
  | unsigned_int
  | int32_t
  | array (elem : CType) (count : Nat)
deriving DecidableEq, Repr

/-- Storage size in bytes: `char` is one byte, `int32_t` is exactly four,
`unsigned short` and `unsigned int` are two and four bytes (as on every
ILP32, LP64 and LLP64 target), an array is `count` elements back to back. -/
def CType.sizeof : CType → Nat
  | .char => 1
  | .unsigned_short => 2
  | .unsigned_int => 4
  | .int32_t => 4
  | .array elem count => count * elem.sizeof

/-- One data member of a record: its name and its type. -/
structure member_t where
  name : String
  type : CType
deriving DecidableEq, Repr

/-- Byte offsets of the members of a record under `#pragma pack(1)`, starting
at byte `base`: alignment is one, so no padding is inserted and each member
begins where the previous one ends. -/
def packed_offsets_from : Nat → List member_t → List Nat
  | _, [] => []
  | base, m :: ms => base :: packed_offsets_from (base + m.type.sizeof) ms

/-- Byte offsets of the members of a packed record. -/
def packed_offsets (ms : List member_t) : List Nat :=
  packed_offsets_from 0 ms

/-- Size of a packed record: with alignment one there is no tail padding, so
the size is the sum of the member sizes. -/
def packed_sizeof (ms : List member_t) : Nat :=
  (ms.map fun m => m.type.sizeof).sum

/-! ## vpk1.h : constants and on-disk records -/

/-- Constant `VPK1Signature` of vpk1.h. -/
def VPK1Signature : Nat := 0x55AA1234

/-- Constant `VPK1Version` of vpk1.h. -/
def VPK1Version : Nat := 1

/-- Constant `VPK1Terminator` of vpk1.h. -/
def VPK1Terminator : Nat := 0xffff

/-- Header `vpk1_header_t`. -/
structure vpk1_header_t where
  signature : Nat
  version : Nat
  treesize : Nat
deriving DecidableEq, Repr

/-- Members of `vpk1_header_t` in declaration order. -/
def vpk1_header_t.members : List member_t :=
  [⟨"signature", .unsigned_int⟩, ⟨"version", .unsigned_int⟩, ⟨"treesize", .unsigned_int⟩]

/-- Directory record `vpk1_directory_entry_t`. -/
structure vpk1_directory_entry_t where
  crc : Nat
  preload_bytes : Nat
  archive_index : Nat
  entry_offset : Nat
  entry_length : Nat
  terminator : Nat
deriving DecidableEq, Repr

/-- Members of `vpk1_directory_entry_t` in declaration order. -/
def vpk1_directory_entry_t.members : List member_t :=
  [⟨"crc", .unsigned_int⟩, ⟨"preload_bytes", .unsigned_short⟩,
   ⟨"archive_index", .unsigned_short⟩, ⟨"entry_offset", .unsigned_int⟩,
   ⟨"entry_length", .unsigned_int⟩, ⟨"terminator", .unsigned_short⟩]

/-- Constructor `vpk1_directory_entry_t::vpk1_directory_entry_t()`. -/
def vpk1_directory_entry_t.ctor : vpk1_directory_entry_t where
  terminator := VPK1Terminator
  crc := 0
  preload_bytes := 0
  archive_index := 0
  entry_offset := 0
  entry_length := 0

/-- In-memory companion `vpk1_file_t` of a Pack-V1 entry.  The `void*`
preload buffer is `none` for `nullptr`, otherwise the bytes it points to. -/
structure vpk1_file_t where
  full_file : String
  srcfile : String
  preload : Option (List Nat)
  dirent : vpk1_directory_entry_t
  dirty : Bool
  written : Bool
deriving DecidableEq, Repr

/-- Constructor `vpk1_file_t::vpk1_file_t()`: the strings and the directory
record are default-constructed, the body clears the pointer and both flags. -/
def vpk1_file_t.ctor : vpk1_file_t where
  full_file := ""
  srcfile := ""
  dirent := vpk1_directory_entry_t.ctor
  preload := none
  dirty := false
  written := false

/-! ## wad.h : constants and on-disk records -/

/-- Constant `PWADSignature` of wad.h. -/
def PWADSignature : List Char := ['P', 'W', 'A', 'D']

/-- Constant `IWADSignature` of wad.h. -/
def IWADSignature : List Char := ['I', 'W', 'A', 'D']

/-- Header `wad_header_t`; the two counters are signed 32-bit. -/
structure wad_header_t where
  signature : List Char
  entries : Int
  dir_offset : Int
deriving DecidableEq, Repr

/-- Members of `wad_header_t` in declaration order. -/
def wad_header_t.members : List member_t :=
  [⟨"signature", .array .char 4⟩, ⟨"entries", .int32_t⟩, ⟨"dir_offset", .int32_t⟩]

/-- The anonymous union inside `wad_internal_file_t`: either a source path or
a buffer (`none` for `nullptr`) with its length. -/
inductive wad_backing_t where
  | src (path : String)
  | dat (ptr : Option (List Nat)) (sz : Nat)
deriving DecidableEq, Repr

/-- In-memory companion `wad_internal_file_t` of a LumpPack entry. -/
structure wad_internal_file_t where
  onDisk : Bool
  backing : wad_backing_t
deriving DecidableEq, Repr

/-- Constructor `wad_internal_file_t::wad_internal_file_t()`. -/
def wad_internal_file_t.ctor : wad_internal_file_t where
  onDisk := false
  backing := .dat none 0

/-- Directory record `wad_directory_t`. -/
structure wad_directory_t where
  offset : Int
  size : Int
  name : List Char
deriving DecidableEq, Repr

/-- Members of `wad_directory_t` in declaration order. -/
def wad_directory_t.members : List member_t :=
  [⟨"offset", .int32_t⟩, ⟨"size", .int32_t⟩, ⟨"name", .array .char 8⟩]

/-- Settings `wad_settings_t`. -/
structure wad_settings_t where
  bKeepFileHandles : Bool
deriving DecidableEq, Repr

/-- Default settings `g_DefaultWadSettings`. -/
def g_DefaultWadSettings : wad_settings_t where
  bKeepFileHandles := true

/-! ## basearchive.h : the entry record -/

/-- The anonymous union of `archive_file_t`: which format-private pointer is
live.  The default constructor leaves it unset; `vpk2_file_t` is only forward
declared, so that alternative carries no data. -/
inductive private_data_t where
  | unset
  | vpk1 (p : vpk1_file_t)
  | vpk2
  | wad (p : wad_internal_file_t)
deriving DecidableEq, Repr

/-- Entry record `archive_file_t`. -/
structure archive_file_t where
  name : String
  dir : String
  ext : String
  size : Nat
  offset : Nat
  on_disk : Bool
  dirty : Bool
  priv : private_data_t
deriving DecidableEq, Repr

/-- Constructor `archive_file_t::archive_file_t()`. -/
def archive_file_t.ctor : archive_file_t where
  size := 0
  offset := 0
  name := ""
  dir := ""
  ext := ""
  on_disk := false
  dirty := false
  priv := .unset

/-- Read the `vpk1` member of the union of an entry. -/
def archive_file_t.vpk1 (file : archive_file_t) : Option vpk1_file_t :=
  match file.priv with
  | .vpk1 p => some p
  | _ => none

/-- Static factory `vpk1_file_t::create()`. -/
def vpk1_file_t.create : archive_file_t :=
  let file := archive_file_t.ctor
  let file := { file with size := 0 }
  let file := { file with offset := file.size }
  { file with priv := .vpk1 vpk1_file_t.ctor }

/-! ## vpk1.h : the Pack-V1 archive -/

/-- Settings `vpk1_settings_t`. -/
structure vpk1_settings_t where
  keep_preload_data : Bool
  keep_handles : Bool
  readonly : Bool
  size_budget : Nat
  max_preload_size : Nat
deriving DecidableEq, Repr

/-- Enumeration `CVPK1Archive::EError`, enumerators in declaration order
(`NONE = 0`, then 1, 2, 3). -/
inductive CVPK1Archive.EError where
  | NONE
  | INVALID_SIG
  | WRONG_VERSION
  | FILE_NOT_FOUND
deriving DecidableEq, Repr

/-- Data members of class `CVPK1Archive`.  `archive_sizes` is a `size_t*`:
`none` for a null pointer, otherwise the array it points to. -/
structure CVPK1Archive where
  readonly : Bool
  files : List archive_file_t
  base_archive_name : String
  settings : vpk1_settings_t
  num_archives : Int
  archive_sizes : Option (List Nat)
  header : vpk1_header_t
  last_error : CVPK1Archive.EError
deriving DecidableEq, Repr

/-- Member `CVPK1Archive::get_files`. -/
def CVPK1Archive.get_files (self : CVPK1Archive) : List archive_file_t :=
  self.files

/-- Member `CVPK1Archive::good`: `return this->last_error == EError::NONE;`. -/
def CVPK1Archive.good (self : CVPK1Archive) : Bool :=
  self.last_error == CVPK1Archive.EError.NONE

/-- Member `CVPK1Archive::get_last_error_string`: the `switch` over
`last_error`, with `NONE` sharing the `default` label. -/
def CVPK1Archive.get_last_error_string (self : CVPK1Archive) : String :=
  match self.last_error with
  | .FILE_NOT_FOUND => "File not found"
  | .INVALID_SIG => "VPK signature invalid"
  | .WRONG_VERSION => "Incorrect VPK version"
  | .NONE => "No error"

/-- A concrete Pack-V1 archive state: no entries, a valid header, no error
recorded. -/
def loaded_vpk1_archive : CVPK1Archive where
  readonly := false
  files := []
  base_archive_name := "pak01"
  settings := ⟨true, true, false, 536870912, 2048⟩
  num_archives := 0
  archive_sizes := none
  header := ⟨VPK1Signature, VPK1Version, 0⟩
  last_error := .NONE

/-! ## wad.h : the LumpPack archive -/

/-- Data members of class `CWADArchive`.  The five one-bit `bool` bit-fields
are booleans; the `FILE*` is `none` for a null pointer, otherwise an abstract
stream number. -/
structure CWADArchive where
  m_header : wad_header_t
  m_onDiskName : String
  m_files : List archive_file_t
  m_onDisk : Bool
  m_IWAD : Bool
  m_PWAD : Bool
  m_dirty : Bool
  m_error : Bool
  m_settings : wad_settings_t
  m_fileHandle : Option Nat
deriving DecidableEq, Repr

/-- Member `CWADArchive::is_pwad`. -/
def CWADArchive.is_pwad (self : CWADArchive) : Bool :=
  self.m_PWAD

/-- Member `CWADArchive::is_iwad`. -/
def CWADArchive.is_iwad (self : CWADArchive) : Bool :=
  self.m_IWAD

/-- Member `CWADArchive::set_pwad`: `m_PWAD = b; m_IWAD = !b;`. -/
def CWADArchive.set_pwad (self : CWADArchive) (b : Bool) : CWADArchive :=
  let self := { self with m_PWAD := b }
  { self with m_IWAD := !b }

/-- Member `CWADArchive::set_iwad`: `m_IWAD = b; m_PWAD = !b;`. -/
def CWADArchive.set_iwad (self : CWADArchive) (b : Bool) : CWADArchive :=
  let self := { self with m_IWAD := b }
  { self with m_PWAD := !b }

/-- Member `CWADArchive::get_files`. -/
def CWADArchive.get_files (self : CWADArchive) : List archive_file_t :=
  self.m_files

/-- Member `CWADArchive::good`: `return true;`. -/
def CWADArchive.good (_self : CWADArchive) : Bool :=
  true

/-- Member `CWADArchive::get_last_error_string`: `return "";`. -/
def CWADArchive.get_last_error_string (_self : CWADArchive) : String :=
  ""

/-- The value of `sizeof(wad_header_t)`. -/
def sizeof_wad_header_t : Nat :=
  packed_sizeof wad_header_t.members

/-- Number of values of a `size_t`, the type of `archive_file_t::size` and
`archive_file_t::offset`: 64 bits, as on LP64 and LLP64 targets.  Sums of
`size_t` values are taken modulo this number. -/
def size_t_range : Nat := 2 ^ 64

/-- Conversion of an unsigned value to `int32_t`, the type of
`wad_header_t::entries` and `wad_header_t::dir_offset`: the low 32 bits, read
as a two's complement number. -/
def to_int32 (n : Nat) : Int :=
  if n % 2 ^ 32 < 2 ^ 31 then Int.ofNat (n % 2 ^ 32)
  else Int.ofNat (n % 2 ^ 32) - 2 ^ 32

/-- Modelled from the spec: the loop of `CWADArchive::calc_offsets`, whose body
is not among the source files.  "Assign each entry's on-disk offset as the
running total of all prior entries' sizes (plus header size)": `offset` is the
running total on entry to the current element; the result is the updated list
together with the total after the last element.  The total is a `size_t`, so
each addition is taken modulo `size_t_range`. -/
def calc_offsets_loop : Nat → List archive_file_t → List archive_file_t × Nat
  | offset, [] => ([], offset)
  | offset, file :: rest =>
    let r := calc_offsets_loop ((offset + file.size) % size_t_range) rest
    ({ file with offset := offset } :: r.1, r.2)

/-- Modelled from the spec: `CWADArchive::calc_offsets`, declared in wad.h
without a body among the source files.  The running total starts at the
header size, every entry receives the total of what precedes it,
`header.entries` becomes the number of entries and `dir_offset` "the position
immediately after the last payload byte".  Both header counters are
`int32_t` (wad.h, "signed 32-bit" in the spec), so what is stored in them is
the `int32_t` conversion of the count and of the total. -/
def CWADArchive.calc_offsets (self : CWADArchive) : CWADArchive :=
  let r := calc_offsets_loop sizeof_wad_header_t self.m_files
  let header := { self.m_header with entries := to_int32 self.m_files.length }
  let header := { header with dir_offset := to_int32 r.2 }
  { self with m_files := r.1, m_header := header }

/-- A LumpPack entry with the given name and payload size and a stale offset. -/
def wad_entry (name : String) (size stale : Nat) : archive_file_t where
  name := name
  dir := ""
  ext := ""
  size := size
  offset := stale
  on_disk := false
  dirty := true
  priv := .wad ⟨false, .dat (some (List.replicate size 0)) size⟩

/-- A concrete LumpPack archive: `ENTRY1` (10 bytes) then `ENTRY2` (20 bytes),
with offsets and header counters that are out of date. -/
def two_entry_wad : CWADArchive where
  m_header := ⟨PWADSignature, 0, 0⟩
  m_onDiskName := ""
  m_files := [wad_entry "ENTRY1" 10 0, wad_entry "ENTRY2" 20 777]
  m_onDisk := false
  m_IWAD := false
  m_PWAD := true
  m_dirty := true
  m_error := false
  m_settings := g_DefaultWadSettings
  m_fileHandle := none

/-- A LumpPack entry backed by a file on disk, with the given name, source
path and payload size, and offset zero. -/
def wad_disk_entry (name path : String) (size : Nat) : archive_file_t where
  name := name
  dir := ""
  ext := ""
  size := size
  offset := 0
  on_disk := false
  dirty := true
  priv := .wad ⟨true, .src path⟩

/-- A concrete LumpPack archive: `BIG` (2147483648 bytes, to be read from
disk) then `TAIL` (1 byte). -/
def oversized_wad : CWADArchive where
  m_header := ⟨PWADSignature, 0, 0⟩
  m_onDiskName := ""
  m_files := [wad_disk_entry "BIG" "big.bin" 2147483648, wad_entry "TAIL" 1 0]
  m_onDisk := false
  m_IWAD := false
  m_PWAD := true
  m_dirty := true
  m_error := false
  m_settings := g_DefaultWadSettings
  m_fileHandle := none

/-- A concrete LumpPack archive whose error bit is set. -/
def failed_wad : CWADArchive where
  m_header := ⟨['X', 'W', 'A', 'D'], 0, 0⟩
  m_onDiskName := "bad.wad"
  m_files := []
  m_onDisk := false
  m_IWAD := false
  m_PWAD := false
  m_dirty := false
  m_error := true
  m_settings := g_DefaultWadSettings
  m_fileHandle := none

/-! ## Helper lemmas -/

theorem to_int32_of_lt (n : Nat) (h : n < 2 ^ 31) : to_int32 n = (n : Int) := by
  have h32 : n % 2 ^ 32 = n := Nat.mod_eq_of_lt (by omega)
  unfold to_int32
  rw [h32, if_pos h]
  rfl

theorem to_int32_lt (n : Nat) : to_int32 n < 2147483648 := by
  unfold to_int32
  split
  · rename_i h
    simp only [Int.ofNat_eq_coe]
    omega
  · have h32 : n % 2 ^ 32 < 2 ^ 32 := Nat.mod_lt _ (by decide)
    simp only [Int.ofNat_eq_coe]
    omega

theorem calc_offsets_loop_total (base : Nat) (fs : List archive_file_t)
    (h : base + (fs.map fun f => f.size).sum < size_t_range) :
    (calc_offsets_loop base fs).2 = base + (fs.map fun f => f.size).sum := by
  induction fs generalizing base with
  | nil => simp [calc_offsets_loop]
  | cons f fs ih =>
    simp only [List.map_cons, List.sum_cons] at h
    have hstep : (base + f.size) % size_t_range = base + f.size :=
      Nat.mod_eq_of_lt (by omega)
    simp only [calc_offsets_loop, List.map_cons, List.sum_cons, hstep]
    rw [ih (base + f.size) (by omega)]
    omega

theorem calc_offsets_loop_offsets (base : Nat) (fs : List archive_file_t)
    (h : base + (fs.map fun f => f.size).sum < size_t_range) :
    (calc_offsets_loop base fs).1.map (fun f => f.offset) =
      (List.range fs.length).map
        (fun i => base + ((fs.take i).map fun f => f.size).sum) := by
  induction fs generalizing base with
  | nil => simp [calc_offsets_loop]
  | cons f fs ih =>
    simp only [List.map_cons, List.sum_cons] at h
    have hstep : (base + f.size) % size_t_range = base + f.size :=
      Nat.mod_eq_of_lt (by omega)
    simp only [calc_offsets_loop, List.map_cons, List.length_cons, hstep,
      List.range_succ_eq_map, List.take_zero, List.map_nil, List.sum_nil,
      Nat.add_zero, List.map_map]
    rw [ih (base + f.size) (by omega)]
    congr 1
    apply List.map_congr_left
    intro i _
    simp [Nat.add_assoc]

theorem calc_offsets_loop_rest (base : Nat) (fs : List archive_file_t) :
    (calc_offsets_loop base fs).1.map (fun f => { f with offset := 0 }) =
      fs.map (fun f => { f with offset := 0 }) := by
  induction fs generalizing base with
  | nil => simp [calc_offsets_loop]
  | cons f fs ih => simp [calc_offsets_loop, ih]

/-! ## LumpPack: the primary / patch flags -/

/-- C1: for every LumpPack archive state and every boolean `b`, after
`set_pwad(b)` the query `is_pwad()` gives `b` and `is_iwad()` gives `!b`; after
`set_iwad(b)` the query `is_iwad()` gives `b` and `is_pwad()` gives `!b`; so
after either setter exactly one of the two flags is true. -/
theorem set_pwad_set_iwad_exclusive (a : CWADArchive) (b : Bool) :
    ((a.set_pwad b).is_pwad = b ∧ (a.set_pwad b).is_iwad = !b) ∧
    ((a.set_iwad b).is_iwad = b ∧ (a.set_iwad b).is_pwad = !b) ∧
    xor (a.set_pwad b).is_pwad (a.set_pwad b).is_iwad = true ∧
    xor (a.set_iwad b).is_pwad (a.set_iwad b).is_iwad = true := by
  cases b <;>
    simp [CWADArchive.set_pwad, CWADArchive.set_iwad, CWADArchive.is_pwad,
      CWADArchive.is_iwad]

/-! ## Pack-V1: status query and error text -/

/-- C2, the claim as stated fails: the archive `loaded_vpk1_archive` is good,
and once its `last_error` is `FILE_NOT_FOUND` it is not good any more, so the
assignment changed the value of `good()`. -/
theorem file_not_found_changes_good :
    loaded_vpk1_archive.good = true ∧
    ({ loaded_vpk1_archive with
        last_error := CVPK1Archive.EError.FILE_NOT_FOUND }).good = false ∧
    ¬ (({ loaded_vpk1_archive with
        last_error := CVPK1Archive.EError.FILE_NOT_FOUND }).good =
      loaded_vpk1_archive.good) := by
  decide

/-- C2, amended: for every Pack-V1 archive state, once `last_error` is set to
`FILE_NOT_FOUND` the query `good()` gives false; so the assignment leaves the
value of `good()` unchanged exactly when `good()` was already false, and an
archive for which `good()` was true reports `good()` false afterwards. -/
theorem file_not_found_not_good (a : CVPK1Archive) :
    ({ a with last_error := CVPK1Archive.EError.FILE_NOT_FOUND }).good = false ∧
    (({ a with last_error := CVPK1Archive.EError.FILE_NOT_FOUND }).good = a.good ↔
      a.good = false) ∧
    (a.good = true →
      ({ a with last_error := CVPK1Archive.EError.FILE_NOT_FOUND }).good = false ∧
      ({ a with last_error := CVPK1Archive.EError.FILE_NOT_FOUND }).good ≠ a.good) := by
  cases h : a.good <;> simp [CVPK1Archive.good]

/-- C2 amended, at the good archive `loaded_vpk1_archive`: it is good before
the assignment and not good after it. -/
theorem file_not_found_not_good_witness :
    loaded_vpk1_archive.good = true ∧
    ({ loaded_vpk1_archive with
        last_error := CVPK1Archive.EError.FILE_NOT_FOUND }).good = false ∧
    ({ loaded_vpk1_archive with
        last_error := CVPK1Archive.EError.FILE_NOT_FOUND }).good ≠
      loaded_vpk1_archive.good :=
  ⟨by decide, (file_not_found_not_good loaded_vpk1_archive).2.2 (by decide)⟩

/-- C3: for every Pack-V1 archive, `good()` gives false whenever `last_error`
is `INVALID_SIG` or `WRONG_VERSION`, and true when `last_error` is `NONE`. -/
theorem good_of_last_error (a : CVPK1Archive) :
    (a.last_error = CVPK1Archive.EError.INVALID_SIG ∨
      a.last_error = CVPK1Archive.EError.WRONG_VERSION → a.good = false) ∧
    (a.last_error = CVPK1Archive.EError.NONE → a.good = true) := by
  refine ⟨?_, ?_⟩
  · rintro (h | h) <;> simp [CVPK1Archive.good, h]
  · intro h
    simp [CVPK1Archive.good, h]

/-- C3 at concrete archives: one with `INVALID_SIG`, one with `WRONG_VERSION`,
one with `NONE`. -/
theorem good_of_last_error_witness :
    ({ loaded_vpk1_archive with
        last_error := CVPK1Archive.EError.INVALID_SIG }).good = false ∧
    ({ loaded_vpk1_archive with
        last_error := CVPK1Archive.EError.WRONG_VERSION }).good = false ∧
    loaded_vpk1_archive.good = true :=
  ⟨(good_of_last_error _).1 (Or.inl rfl), (good_of_last_error _).1 (Or.inr rfl),
    (good_of_last_error loaded_vpk1_archive).2 rfl⟩

/-- C8, the claim as stated fails: with `last_error = INVALID_SIG` the text is
not "invalid signature", and with `last_error = WRONG_VERSION` it is not
"wrong version". -/
theorem error_string_not_spec_wording :
    ({ loaded_vpk1_archive with
        last_error := CVPK1Archive.EError.INVALID_SIG }).get_last_error_string ≠
      "invalid signature" ∧
    ({ loaded_vpk1_archive with
        last_error := CVPK1Archive.EError.WRONG_VERSION }).get_last_error_string ≠
      "wrong version" := by
  decide

/-- C8, amended: for every Pack-V1 archive, `get_last_error_string()` gives
"VPK signature invalid" when `last_error` is `INVALID_SIG` and
"Incorrect VPK version" when `last_error` is `WRONG_VERSION`. -/
theorem error_string_of_fatal (a : CVPK1Archive) :
    (a.last_error = CVPK1Archive.EError.INVALID_SIG →
      a.get_last_error_string = "VPK signature invalid") ∧
    (a.last_error = CVPK1Archive.EError.WRONG_VERSION →
      a.get_last_error_string = "Incorrect VPK version") := by
  refine ⟨?_, ?_⟩ <;> intro h <;> simp [CVPK1Archive.get_last_error_string, h]

/-- C8 amended, at concrete archives with `INVALID_SIG` and `WRONG_VERSION`. -/
theorem error_string_of_fatal_witness :
    ({ loaded_vpk1_archive with
        last_error := CVPK1Archive.EError.INVALID_SIG }).get_last_error_string =
      "VPK signature invalid" ∧
    ({ loaded_vpk1_archive with
        last_error := CVPK1Archive.EError.WRONG_VERSION }).get_last_error_string =
      "Incorrect VPK version" :=
  ⟨(error_string_of_fatal _).1 rfl, (error_string_of_fatal _).2 rfl⟩

/-- C10: for every Pack-V1 archive (hence for each of the four values of
`last_error`), `good()` is true if and only if `get_last_error_string()` gives
"No error"; and the texts for `NONE`, `INVALID_SIG`, `WRONG_VERSION`,
`FILE_NOT_FOUND` are pairwise distinct. -/
theorem good_iff_no_error_string (a : CVPK1Archive) :
    (a.good = true ↔ a.get_last_error_string = "No error") ∧
    ([CVPK1Archive.EError.NONE, CVPK1Archive.EError.INVALID_SIG,
      CVPK1Archive.EError.WRONG_VERSION, CVPK1Archive.EError.FILE_NOT_FOUND].map
        fun e => ({ a with last_error := e }).get_last_error_string).Nodup := by
  refine ⟨?_, ?_⟩
  · cases h : a.last_error <;>
      simp [CVPK1Archive.good, CVPK1Archive.get_last_error_string, h]
  · simp only [List.map, CVPK1Archive.get_last_error_string]
    decide

/-! ## Pack-V1: freshly constructed directory records -/

/-- C5: a freshly constructed `vpk1_directory_entry_t` has terminator `0xFFFF`
(the constant `VPK1Terminator`) and `crc`, `preload_bytes`, `archive_index`,
`entry_offset`, `entry_length` all zero; the entry made by
`vpk1_file_t::create` carries a `vpk1_file_t` whose `dirent` is such a
record. -/
theorem fresh_dirent_terminator :
    vpk1_directory_entry_t.ctor = ⟨0, 0, 0, 0, 0, 0xFFFF⟩ ∧
    VPK1Terminator = 0xFFFF ∧
    ∃ p, vpk1_file_t.create.vpk1 = some p ∧
      p.dirent.terminator = VPK1Terminator ∧ p.dirent.crc = 0 ∧
      p.dirent.preload_bytes = 0 ∧ p.dirent.archive_index = 0 ∧
      p.dirent.entry_offset = 0 ∧ p.dirent.entry_length = 0 :=
  ⟨rfl, rfl, vpk1_file_t.ctor, rfl, rfl, rfl, rfl, rfl, rfl, rfl⟩

/-! ## On-disk record layout -/

/-- C6: the packed `wad_header_t` (4-byte signature, `int32_t` entries,
`int32_t` dir_offset) has members of 4, 4, 4 bytes at offsets 0, 4, 8 and
occupies 12 bytes; the packed `wad_directory_t` (`int32_t` offset, `int32_t`
size, 8-byte name) has members of 4, 4, 8 bytes at offsets 0, 4, 8 and
occupies 16 bytes; `PWADSignature` and `IWADSignature` are distinct and four
characters long. -/
theorem wad_record_layout :
    (wad_header_t.members.map (fun m => m.type.sizeof) = [4, 4, 4] ∧
      packed_offsets wad_header_t.members = [0, 4, 8] ∧
      packed_sizeof wad_header_t.members = 12) ∧
    (wad_directory_t.members.map (fun m => m.type.sizeof) = [4, 4, 8] ∧
      packed_offsets wad_directory_t.members = [0, 4, 8] ∧
      packed_sizeof wad_directory_t.members = 16) ∧
    (PWADSignature ≠ IWADSignature ∧ PWADSignature.length = 4 ∧
      IWADSignature.length = 4) := by
  decide

/-- C7: the packed `vpk1_header_t` is three 4-byte members at offsets 0, 4, 8
and occupies 12 bytes; `VPK1Version` is 1; the packed
`vpk1_directory_entry_t` has members crc, preload_bytes, archive_index,
entry_offset, entry_length, terminator of 4, 2, 2, 4, 4, 2 bytes at offsets
0, 4, 6, 8, 12, 16 and occupies 18 bytes, so what follows the record starts 18
bytes after its first byte. -/
theorem vpk1_record_layout :
    (vpk1_header_t.members.map (fun m => m.name) =
        ["signature", "version", "treesize"] ∧
      vpk1_header_t.members.map (fun m => m.type.sizeof) = [4, 4, 4] ∧
      packed_offsets vpk1_header_t.members = [0, 4, 8] ∧
      packed_sizeof vpk1_header_t.members = 12) ∧
    VPK1Version = 1 ∧
    (vpk1_directory_entry_t.members.map (fun m => m.name) =
        ["crc", "preload_bytes", "archive_index", "entry_offset", "entry_length",
          "terminator"] ∧
      vpk1_directory_entry_t.members.map (fun m => m.type.sizeof) =
        [4, 2, 2, 4, 4, 2] ∧
      packed_offsets vpk1_directory_entry_t.members = [0, 4, 6, 8, 12, 16] ∧
      packed_sizeof vpk1_directory_entry_t.members = 18 ∧
      packed_offsets_from 0
          (vpk1_directory_entry_t.members ++ [⟨"preload", .array .char 1⟩]) =
        [0, 4, 6, 8, 12, 16, 18]) := by
  decide

/-! ## LumpPack: status query -/

/-- C4, the code at the failing input: the archive `failed_wad` has its error
bit set, yet `good()` gives true and `get_last_error_string()` gives the empty
text; indeed both queries give these values for every archive state. -/
theorem wad_good_ignores_error_flag :
    (failed_wad.m_error = true ∧ failed_wad.good = true ∧
      failed_wad.get_last_error_string = "") ∧
    ∀ a : CWADArchive, a.good = true ∧ a.get_last_error_string = "" :=
  ⟨by decide, fun _ => ⟨rfl, rfl⟩⟩

/-! ## LumpPack: offset recomputation -/

/-- C9, the claim as stated fails: for the archive holding `BIG` (2147483648
bytes) then `TAIL` (1 byte), 12 plus the sum of all entry sizes is 2147483661,
which the `int32_t` counter `dir_offset` cannot hold: after `calc_offsets` its
value differs from that number and lies below 2147483648. -/
theorem calc_offsets_dir_offset_overflow :
    12 + (oversized_wad.m_files.map fun f => f.size).sum = 2147483661 ∧
    oversized_wad.calc_offsets.m_header.dir_offset ≠
      ((12 + (oversized_wad.m_files.map fun f => f.size).sum : Nat) : Int) ∧
    oversized_wad.calc_offsets.m_header.dir_offset < 2147483648 := by
  have hsum : 12 + (oversized_wad.m_files.map fun f => f.size).sum = 2147483661 := by
    decide
  have hlt : oversized_wad.calc_offsets.m_header.dir_offset < 2147483648 := by
    simp only [CWADArchive.calc_offsets]
    exact to_int32_lt _
  refine ⟨hsum, ?_, hlt⟩
  rw [hsum]
  intro h
  rw [h] at hlt
  exact absurd hlt (by decide)

/-- C9, amended: for every LumpPack archive with fewer than 2^31 entries whose
12 plus the sum of all entry sizes is below 2^31, after `calc_offsets` the
i-th entry has offset 12 plus the sum of the sizes of the entries before it,
`header.entries` is the number of entries, `dir_offset` is 12 plus the sum of
all entry sizes, and nothing but the offsets of the entries has changed in the
entry list. -/
theorem calc_offsets_prefix_sums (a : CWADArchive)
    (hlen : a.m_files.length < 2 ^ 31)
    (hsum : 12 + (a.m_files.map fun f => f.size).sum < 2 ^ 31) :
    a.calc_offsets.m_files.map (fun f => f.offset) =
      (List.range a.m_files.length).map
        (fun i => 12 + ((a.m_files.take i).map fun f => f.size).sum) ∧
    a.calc_offsets.m_header.entries = (a.m_files.length : Int) ∧
    a.calc_offsets.m_header.dir_offset =
      ((12 + (a.m_files.map fun f => f.size).sum : Nat) : Int) ∧
    a.calc_offsets.m_files.map (fun f => { f with offset := 0 }) =
      a.m_files.map (fun f => { f with offset := 0 }) := by
  have h12 : sizeof_wad_header_t = 12 := by decide
  have hrange : 12 + (a.m_files.map fun f => f.size).sum < size_t_range := by
    have : (2 : Nat) ^ 31 < size_t_range := by decide
    omega
  refine ⟨?_, ?_, ?_, ?_⟩
  · simp only [CWADArchive.calc_offsets, h12]
    exact calc_offsets_loop_offsets 12 a.m_files hrange
  · simp only [CWADArchive.calc_offsets]
    exact to_int32_of_lt _ hlen
  · simp only [CWADArchive.calc_offsets, h12]
    rw [calc_offsets_loop_total 12 a.m_files hrange]
    exact to_int32_of_lt _ hsum
  · simp only [CWADArchive.calc_offsets, calc_offsets_loop_rest]

/-- C9 amended, at the archive holding `ENTRY1` (10 bytes) then `ENTRY2` (20
bytes), which meets both bounds: the offsets become 12 and 22, `entries`
becomes 2 and `dir_offset` 42. -/
theorem calc_offsets_two_entries :
    two_entry_wad.m_files.length < 2 ^ 31 ∧
    12 + (two_entry_wad.m_files.map fun f => f.size).sum < 2 ^ 31 ∧
    two_entry_wad.calc_offsets.m_files.map (fun f => (f.name, f.size, f.offset)) =
      [("ENTRY1", 10, 12), ("ENTRY2", 20, 22)] ∧
    two_entry_wad.calc_offsets.m_files.map (fun f => f.offset) = [12, 22] ∧
    two_entry_wad.calc_offsets.m_header.entries = 2 ∧
    two_entry_wad.calc_offsets.m_header.dir_offset = 42 := by
  have h := calc_offsets_prefix_sums two_entry_wad (by decide) (by decide)
  exact ⟨by decide, by decide, by decide, h.1.trans (by decide),
    h.2.1.trans (by decide), h.2.2.1.trans (by decide)⟩

end libvpk
